import Mathlib

/-!
Shallow embedding of the PV compatibility-report engine of
calculatrice-PV-Richardson-Toulon (src/components/PdfReport.tsx and the
margins module appended to it). Numeric values computed by the
TypeScript code with floating point are modelled as rationals; optional
or JS-falsy values are modelled with Option, and the JS `x || d`
fallback idiom is modelled explicitly (absent or zero both yield the
default).
-/

namespace PVCalc

/-- Wind zones 1..5, as in the WindZone enum consumed by
getRecommendedMargins. -/
inductive WindZone
  | ZONE_1
  | ZONE_2
  | ZONE_3
  | ZONE_4
  | ZONE_5
deriving DecidableEq, Fintype, Repr

/-- Roof types, as in the RoofType enum consumed by
getRecommendedMargins. -/
inductive RoofType
  | TUILE_MECANIQUE
  | TUILE_PLATE
  | TUILE_CANAL
  | FIBROCIMENT
deriving DecidableEq, Fintype, Repr

/-- The Margins record returned by getRecommendedMargins (millimetres). -/
structure Margins where
  top : Nat
  bottom : Nat
  left : Nat
  right : Nat
deriving DecidableEq, Repr

/-- Embedding of getRecommendedMargins: base margin from the wind zone,
side margin additionally adjusted by roof type, top and bottom kept at
the base margin. -/
def getRecommendedMargins (roofType : RoofType) (windZone : WindZone) : Margins :=
  let baseMargin : Nat :=
    match windZone with
    | .ZONE_1 | .ZONE_2 => 300
    | .ZONE_3 => 400
    | .ZONE_4 => 500
    | .ZONE_5 => 600
  let sideMargin : Nat :=
    match roofType with
    | .TUILE_MECANIQUE | .TUILE_PLATE => baseMargin
    | .TUILE_CANAL => baseMargin + 50
    | .FIBROCIMENT => baseMargin + 100
  { top := baseMargin, bottom := baseMargin, left := sideMargin, right := sideMargin }

/-- The base-margin table as written in the spec: 300mm for zones 1-2,
400mm for zone 3, 500mm for zone 4, 600mm for zone 5. -/
def baseMarginSpec : WindZone → Nat
  | .ZONE_1 | .ZONE_2 => 300
  | .ZONE_3 => 400
  | .ZONE_4 => 500
  | .ZONE_5 => 600

/-- The per-roof-type side adjustment as written in the spec:
TUILE_CANAL +50mm, FIBROCIMENT +100mm, all others unchanged. -/
def roofSideAdjSpec : RoofType → Nat
  | .TUILE_CANAL => 50
  | .FIBROCIMENT => 100
  | _ => 0

/-- A configured string; only the mpptIndex field matters to the
parallel-string count. none models an absent (or null) field; some 0
models an explicit 0 (both are JS-falsy in the source). -/
structure ConfiguredString where
  mpptIndex : Option Nat
deriving DecidableEq, Repr

/-- The effective MPPT index of a string, as computed by
Number(s.mpptIndex || 1): any falsy mpptIndex (absent or 0) becomes 1. -/
def effIdx (s : ConfiguredString) : Nat :=
  match s.mpptIndex with
  | none => 1
  | some 0 => 1
  | some n => n

/-- Number of configured strings whose effective index is i: the value
stored under key i by the mpptParallelCounts accumulator. -/
def countOnMppt (ss : List ConfiguredString) (i : Nat) : Nat :=
  (ss.filter (fun s => effIdx s == i)).length

/-- Maximum of the per-MPPT counts over the indices that occur,
starting from 0, as Object.values(mpptParallelCounts).reduce(max, 0). -/
def maxParallelStringsOnAnyMppt (ss : List ConfiguredString) : Nat :=
  ((ss.map effIdx).map (fun i => countOnMppt ss i)).foldr max 0

/-- gpvRequired: fuses required when more than 2 parallel strings share
one MPPT. -/
def gpvRequired (ss : List ConfiguredString) : Bool :=
  maxParallelStringsOnAnyMppt ss > 2

/-- A micro-inverter branch; only dropPercent matters here. The source
reads b.dropPercent || 0, so the field is modelled as optional. -/
structure MicroBranch where
  dropPercent : Option ℚ
deriving DecidableEq, Repr

/-- dropPercent with the JS falsy fallback (absent gives 0; an explicit
0 also gives 0, the same value). -/
def branchDrop (b : MicroBranch) : ℚ :=
  b.dropPercent.getD 0

/-- The micro-branches report; only the branches list matters here. -/
structure MicroBranchesReport where
  branches : List MicroBranch
deriving DecidableEq, Repr

/-- hasMicroBranches: the report exists and has at least one branch. -/
def hasMicroBranches (mbr : Option MicroBranchesReport) : Bool :=
  match mbr with
  | none => false
  | some r => decide (r.branches.length > 0)

/-- worstBranchDrop: Math.max over the branch drops when branches
exist, 0 otherwise. -/
def worstBranchDrop (mbr : Option MicroBranchesReport) : ℚ :=
  match mbr with
  | none => 0
  | some r =>
    match r.branches with
    | [] => 0
    | b :: bs => (bs.map branchDrop).foldr max (branchDrop b)

/-- totalProductionDrop: worst branch drop plus main feeder drop when
branches exist, otherwise the main feeder drop alone. -/
def totalProductionDrop (mbr : Option MicroBranchesReport) (voltageDrop : ℚ) : ℚ :=
  if hasMicroBranches mbr then worstBranchDrop mbr + voltageDrop else voltageDrop

/-- The report.details fields that the fallback chains at lines 60-64
of PdfReport.tsx read. -/
structure ReportDetails where
  vocCold : Option ℚ
  vminMppt : Option ℚ
  vmaxInverter : Option ℚ
deriving DecidableEq, Repr

/-- A compatibility report as seen through report?.details?.X chains:
details itself may be absent. -/
structure CompatibilityReport where
  details : Option ReportDetails
deriving DecidableEq, Repr

/-- The JS idiom x || d on a numeric value: the default is used when
the value is absent or is exactly 0 (both falsy). -/
def jsOrQ (x : Option ℚ) (d : ℚ) : ℚ :=
  match x with
  | none => d
  | some v => if v = 0 then d else v

/-- report?.details?.vmaxInverter as an optional value. -/
def detailVmaxInverter (r : Option CompatibilityReport) : Option ℚ :=
  r.bind fun x => x.details.bind fun d => d.vmaxInverter

/-- report?.details?.vminMppt as an optional value. -/
def detailVminMppt (r : Option CompatibilityReport) : Option ℚ :=
  r.bind fun x => x.details.bind fun d => d.vminMppt

/-- report?.details?.vocCold as an optional value. -/
def detailVocCold (r : Option CompatibilityReport) : Option ℚ :=
  r.bind fun x => x.details.bind fun d => d.vocCold

/-- invVmaxLimit = report?.details?.vmaxInverter || (tri ? 1000 : 600). -/
def invVmaxLimit (r : Option CompatibilityReport) (isThreePhase : Bool) : ℚ :=
  jsOrQ (detailVmaxInverter r) (if isThreePhase then 1000 else 600)

/-- invVmpMin = report?.details?.vminMppt || 80. -/
def invVmpMin (r : Option CompatibilityReport) : ℚ :=
  jsOrQ (detailVminMppt r) 80

/-- vocColdString = report?.details?.vocCold || 0. -/
def vocColdString (r : Option CompatibilityReport) : ℚ :=
  jsOrQ (detailVocCold r) 0

/-- The SubscriptionStatus record consumed at lines 242-255 of
PdfReport.tsx. -/
structure SubscriptionStatus where
  recommendedKva : Option ℚ
  subscribedKva : Option ℚ
  isOk : Bool
deriving DecidableEq, Repr

/-- Modelled from the spec: the utility subscription tier tables of
SubscriptionAdvisor (getSubscriptionStatus lives in
services/subscriptionService, which is not among the provided sources):
mono 3/6/9/12 kVA, tri 12/18/24/30/36 kVA. -/
def subscriptionTiers (isThreePhase : Bool) : List ℚ :=
  if isThreePhase then [12, 18, 24, 30, 36] else [3, 6, 9, 12]

/-- Modelled from the spec: the recommended tier is the smallest tier
at least the installed power; none when the power exceeds every tier. -/
def recommendedKvaFor (isThreePhase : Bool) (powerKwc : ℚ) : Option ℚ :=
  (subscriptionTiers isThreePhase).find? fun t => decide (powerKwc ≤ t)

/-- Modelled from the spec: getSubscriptionStatus of
services/subscriptionService (not among the provided sources). isOk is
the spec formula subscribedKva != null && subscribedKva >=
recommendedKva; a null subscribedKva is kept as a distinct state. -/
def getSubscriptionStatus (isThreePhase : Bool) (powerKwc : ℚ)
    (subscribedKva : Option ℚ) : SubscriptionStatus :=
  let rk := recommendedKvaFor isThreePhase powerKwc
  { recommendedKva := rk
    subscribedKva := subscribedKva
    isOk :=
      match subscribedKva, rk with
      | some s, some r => decide (r ≤ s)
      | _, _ => false }

/-- The three mutually exclusive renderings of the subscription note at
lines 248-254 of PdfReport.tsx. -/
inductive SubRender
  | unknown
  | compatible
  | underProvisioned
deriving DecidableEq, Repr

/-- The branch structure of the rendering: subscribedKva == null gives
the unknown message, else isOk selects compatible or
under-provisioned. -/
def subscriptionRender (st : SubscriptionStatus) : SubRender :=
  match st.subscribedKva with
  | none => .unknown
  | some _ => if st.isOk then .compatible else .underProvisioned

lemma foldr_max_zero_lt (c : Nat) (l : List Nat) :
    c < l.foldr max 0 ↔ ∃ x ∈ l, c < x := by
  induction l with
  | nil => simp
  | cons a l ih =>
    simp only [List.foldr_cons, lt_max_iff, ih, List.mem_cons]
    constructor
    · rintro (h | ⟨x, hx, hc⟩)
      · exact ⟨a, Or.inl rfl, h⟩
      · exact ⟨x, Or.inr hx, hc⟩
    · rintro ⟨x, (rfl | hx), hc⟩
      · exact Or.inl hc
      · exact Or.inr ⟨x, hx, hc⟩

lemma countOnMppt_pos_mem (ss : List ConfiguredString) (i : Nat)
    (h : 0 < countOnMppt ss i) : i ∈ ss.map effIdx := by
  obtain ⟨s, hs⟩ := List.exists_mem_of_length_pos h
  have hs2 := List.mem_filter.mp hs
  exact List.mem_map.mpr ⟨s, hs2.1, beq_iff_eq.mp hs2.2⟩

/-- C2: gpvRequired is true exactly when some MPPT index carries more
than 2 configured strings, strings being grouped by their effective
MPPT index. -/
theorem claim_C2 (ss : List ConfiguredString) :
    gpvRequired ss = true ↔ ∃ i, 2 < countOnMppt ss i := by
  constructor
  · intro h
    have h2 : 2 < maxParallelStringsOnAnyMppt ss := of_decide_eq_true h
    rw [maxParallelStringsOnAnyMppt, foldr_max_zero_lt] at h2
    obtain ⟨x, hx, hc⟩ := h2
    obtain ⟨i, _, rfl⟩ := List.mem_map.mp hx
    exact ⟨i, hc⟩
  · rintro ⟨i, hi⟩
    have hmem : i ∈ ss.map effIdx :=
      countOnMppt_pos_mem ss i (Nat.lt_of_lt_of_le (by norm_num) (Nat.le_of_lt hi))
    have h2 : 2 < maxParallelStringsOnAnyMppt ss := by
      rw [maxParallelStringsOnAnyMppt, foldr_max_zero_lt]
      exact ⟨countOnMppt ss i, List.mem_map_of_mem _ hmem, hi⟩
    exact decide_eq_true h2

/-- C1: getRecommendedMargins gives every zone the base margin of the
spec table on top and bottom, and the two tabulated examples hold:
(ZONE_5, FIBROCIMENT) gives 600/600/700/700 and (ZONE_1,
TUILE_MECANIQUE) gives 300/300/300/300. -/
theorem claim_C1 :
    (∀ (z : WindZone) (r : RoofType),
      (getRecommendedMargins r z).top = baseMarginSpec z ∧
      (getRecommendedMargins r z).bottom = baseMarginSpec z) ∧
    getRecommendedMargins RoofType.FIBROCIMENT WindZone.ZONE_5 =
      { top := 600, bottom := 600, left := 700, right := 700 } ∧
    getRecommendedMargins RoofType.TUILE_MECANIQUE WindZone.ZONE_1 =
      { top := 300, bottom := 300, left := 300, right := 300 } := by
  refine ⟨by decide, by decide, by decide⟩

/-- C7: for every zone and roof type the margins are exactly base
margin on top and bottom and base margin plus the roof-type side
adjustment (+50 for TUILE_CANAL, +100 for FIBROCIMENT, 0 otherwise) on
left and right. -/
theorem claim_C7 :
    ∀ (z : WindZone) (r : RoofType),
      getRecommendedMargins r z =
        { top := baseMarginSpec z, bottom := baseMarginSpec z,
          left := baseMarginSpec z + roofSideAdjSpec r,
          right := baseMarginSpec z + roofSideAdjSpec r } := by
  decide

/-- C8: the engine functions are deterministic: equal inputs give equal
outputs for getRecommendedMargins, gpvRequired and
totalProductionDrop. -/
theorem claim_C8 (r1 r2 : RoofType) (z1 z2 : WindZone)
    (ss1 ss2 : List ConfiguredString) (m1 m2 : Option MicroBranchesReport)
    (v1 v2 : ℚ) (hr : r1 = r2) (hz : z1 = z2) (hs : ss1 = ss2)
    (hm : m1 = m2) (hv : v1 = v2) :
    getRecommendedMargins r1 z1 = getRecommendedMargins r2 z2 ∧
    gpvRequired ss1 = gpvRequired ss2 ∧
    totalProductionDrop m1 v1 = totalProductionDrop m2 v2 := by
  subst hr; subst hz; subst hs; subst hm; subst hv
  exact ⟨rfl, rfl, rfl⟩

/-- C8 witness at concrete inputs. -/
theorem claim_C8_witness :
    getRecommendedMargins RoofType.TUILE_CANAL WindZone.ZONE_3 =
      getRecommendedMargins RoofType.TUILE_CANAL WindZone.ZONE_3 ∧
    gpvRequired [] = gpvRequired [] ∧
    totalProductionDrop none 1 = totalProductionDrop none 1 :=
  claim_C8 RoofType.TUILE_CANAL RoofType.TUILE_CANAL WindZone.ZONE_3
    WindZone.ZONE_3 [] [] none none 1 1 rfl rfl rfl rfl rfl

lemma foldr_max_from (a : ℚ) (l : List ℚ) :
    (l.foldr max a = a ∨ l.foldr max a ∈ l) ∧
    ∀ x ∈ a :: l, x ≤ l.foldr max a := by
  induction l with
  | nil => simp
  | cons c l ih =>
    constructor
    · rcases max_choice c (l.foldr max a) with h | h
      · right
        rw [List.foldr_cons, h]
        exact List.mem_cons_self c l
      · rw [List.foldr_cons, h]
        rcases ih.1 with h2 | h2
        · left; exact h2
        · right; exact List.mem_cons_of_mem _ h2
    · intro x hx
      rw [List.foldr_cons]
      rcases List.mem_cons.mp hx with rfl | hx2
      · exact le_trans (ih.2 x (List.mem_cons_self x l)) (le_max_right _ _)
      · rcases List.mem_cons.mp hx2 with rfl | hx3
        · exact le_max_left _ _
        · exact le_trans (ih.2 x (List.mem_cons_of_mem _ hx3)) (le_max_right _ _)

/-- C3: with at least one branch, totalProductionDrop is the maximum
branch dropPercent plus the main feeder drop; with no branches (or no
report) it is the main feeder drop alone. -/
theorem claim_C3 (r : MicroBranchesReport) (vd : ℚ) :
    totalProductionDrop none vd = vd ∧
    (r.branches = [] → totalProductionDrop (some r) vd = vd) ∧
    (r.branches ≠ [] →
      ∃ m, (∀ b ∈ r.branches, branchDrop b ≤ m) ∧
        (∃ b ∈ r.branches, branchDrop b = m) ∧
        totalProductionDrop (some r) vd = m + vd) := by
  refine ⟨rfl, ?_, ?_⟩
  · intro h
    simp [totalProductionDrop, hasMicroBranches, h]
  · intro h
    obtain ⟨b, bs, hbs⟩ := List.exists_cons_of_ne_nil h
    refine ⟨(bs.map branchDrop).foldr max (branchDrop b), ?_, ?_, ?_⟩
    · intro b2 hb2
      rw [hbs] at hb2
      have hub := (foldr_max_from (branchDrop b) (bs.map branchDrop)).2
      rcases List.mem_cons.mp hb2 with rfl | hb3
      · exact hub _ (List.mem_cons_self _ _)
      · exact hub _ (List.mem_cons_of_mem _ (List.mem_map_of_mem _ hb3))
    · rcases (foldr_max_from (branchDrop b) (bs.map branchDrop)).1 with h2 | h2
      · exact ⟨b, by rw [hbs]; exact List.mem_cons_self _ _, h2.symm⟩
      · obtain ⟨b2, hb2, hb2e⟩ := List.mem_map.mp h2
        exact ⟨b2, by rw [hbs]; exact List.mem_cons_of_mem _ hb2, hb2e⟩
    · simp [totalProductionDrop, hasMicroBranches, worstBranchDrop, hbs]

/-- C3 witness: a two-branch report with drops 2 and 1 over a feeder
drop of 1. -/
theorem claim_C3_witness :
    ∃ m, (∀ b ∈ ([⟨some 2⟩, ⟨some 1⟩] : List MicroBranch), branchDrop b ≤ m) ∧
      (∃ b ∈ ([⟨some 2⟩, ⟨some 1⟩] : List MicroBranch), branchDrop b = m) ∧
      totalProductionDrop (some ⟨[⟨some 2⟩, ⟨some 1⟩]⟩) 1 = m + 1 :=
  (claim_C3 ⟨[⟨some 2⟩, ⟨some 1⟩]⟩ 1).2.2 (by simp)

/-- C4: with inverter-limit data absent, the displayed limits fall back
to 1000 V for tri-phase, 600 V for mono-phase, and 80 V for the MPPT
minimum. -/
theorem claim_C4 (r : Option CompatibilityReport)
    (h1 : detailVmaxInverter r = none) (h2 : detailVminMppt r = none) :
    invVmaxLimit r true = 1000 ∧ invVmaxLimit r false = 600 ∧
    invVmpMin r = 80 := by
  simp [invVmaxLimit, invVmpMin, jsOrQ, h1, h2]

/-- C4 witness: the absent report. -/
theorem claim_C4_witness :
    invVmaxLimit none true = 1000 ∧ invVmaxLimit none false = 600 ∧
    invVmpMin none = 80 :=
  claim_C4 none rfl rfl

/-- C5: a null subscribedKva gives isOk = false and renders as the
distinct unknown state; a known subscribedKva never renders as unknown;
and isOk is true exactly when subscribedKva is known and at least the
recommended tier. -/
theorem claim_C5 (tri : Bool) (p : ℚ) (sub : Option ℚ) :
    ((getSubscriptionStatus tri p none).isOk = false ∧
      subscriptionRender (getSubscriptionStatus tri p none) = SubRender.unknown) ∧
    (∀ s : ℚ, sub = some s →
      subscriptionRender (getSubscriptionStatus tri p sub) ≠ SubRender.unknown) ∧
    ((getSubscriptionStatus tri p sub).isOk = true ↔
      ∃ s rk, sub = some s ∧ recommendedKvaFor tri p = some rk ∧ rk ≤ s) := by
  refine ⟨⟨rfl, rfl⟩, ?_, ?_⟩
  · rintro s rfl
    simp only [subscriptionRender, getSubscriptionStatus]
    split <;> simp
  · cases sub with
    | none => simp [getSubscriptionStatus]
    | some s =>
      cases hr : recommendedKvaFor tri p with
      | none => simp [getSubscriptionStatus, hr]
      | some rk => simp [getSubscriptionStatus, hr]

/-- C5 witness: mono-phase, 5 kWc, 9 kVA subscribed. -/
theorem claim_C5_witness :
    subscriptionRender (getSubscriptionStatus false 5 (some 9)) ≠
      SubRender.unknown :=
  (claim_C5 false 5 (some 9)).2.1 9 rfl

/-- C6: a string with missing mpptIndex is counted on MPPT 1 (the
count on index 1 grows by one) and on no other index (in particular it
is not coerced to index 0). -/
theorem claim_C6 (ss : List ConfiguredString) (s : ConfiguredString)
    (h : s.mpptIndex = none) :
    countOnMppt (s :: ss) 1 = countOnMppt ss 1 + 1 ∧
    ∀ i, i ≠ 1 → countOnMppt (s :: ss) i = countOnMppt ss i := by
  have he : effIdx s = 1 := by simp [effIdx, h]
  constructor
  · simp [countOnMppt, List.filter_cons, he]
  · intro i hi
    simp [countOnMppt, List.filter_cons, he, Ne.symm hi]

/-- C6 witness: the single missing-index string. -/
theorem claim_C6_witness :
    countOnMppt [⟨none⟩] 1 = countOnMppt ([] : List ConfiguredString) 1 + 1 ∧
    countOnMppt [⟨none⟩] 0 = countOnMppt ([] : List ConfiguredString) 0 :=
  ⟨(claim_C6 [] ⟨none⟩ rfl).1, (claim_C6 [] ⟨none⟩ rfl).2 0 (by decide)⟩

/-- C9: a string with mpptIndex 0 has effective index 1 and is counted
exactly like a string with missing mpptIndex, on every index. -/
theorem claim_C9 (ss : List ConfiguredString) (s0 sn : ConfiguredString)
    (h0 : s0.mpptIndex = some 0) (hn : sn.mpptIndex = none) :
    effIdx s0 = 1 ∧
    ∀ i, countOnMppt (s0 :: ss) i = countOnMppt (sn :: ss) i := by
  have e0 : effIdx s0 = 1 := by simp [effIdx, h0]
  have en : effIdx sn = 1 := by simp [effIdx, hn]
  refine ⟨e0, fun i => ?_⟩
  cases h : ((1 : Nat) == i) <;>
    simp [countOnMppt, List.filter_cons, e0, en, h]

/-- C9 witness: the zero-index string against the missing-index
string. -/
theorem claim_C9_witness :
    effIdx ⟨some 0⟩ = 1 ∧
    countOnMppt [⟨some 0⟩] 1 = countOnMppt [⟨none⟩] 1 :=
  ⟨(claim_C9 [] ⟨some 0⟩ ⟨none⟩ rfl rfl).1,
   (claim_C9 [] ⟨some 0⟩ ⟨none⟩ rfl rfl).2 1⟩

/-- C10: a details value computed as exactly 0 triggers the same
fallback as an absent value: vmaxInverter 0 displays the phase default,
vminMppt 0 displays 80, and vocCold 0 renders as with no report. -/
theorem claim_C10 (d : ReportDetails) (tri : Bool) :
    (d.vmaxInverter = some 0 →
      invVmaxLimit (some ⟨some d⟩) tri = (if tri then 1000 else 600) ∧
      invVmaxLimit (some ⟨some d⟩) tri = invVmaxLimit none tri) ∧
    (d.vminMppt = some 0 →
      invVmpMin (some ⟨some d⟩) = 80 ∧
      invVmpMin (some ⟨some d⟩) = invVmpMin none) ∧
    (d.vocCold = some 0 →
      vocColdString (some ⟨some d⟩) = vocColdString none) := by
  refine ⟨fun h => ?_, fun h => ?_, fun h => ?_⟩ <;>
    simp [invVmaxLimit, invVmpMin, vocColdString, jsOrQ,
      detailVmaxInverter, detailVminMppt, detailVocCold, h]

/-- C10 witness: details with all three fields computed as 0, tri-phase. -/
theorem claim_C10_witness :
    (invVmaxLimit (some ⟨some ⟨some 0, some 0, some 0⟩⟩) true =
        (if true then (1000 : ℚ) else 600) ∧
      invVmaxLimit (some ⟨some ⟨some 0, some 0, some 0⟩⟩) true =
        invVmaxLimit none true) ∧
    (invVmpMin (some ⟨some ⟨some 0, some 0, some 0⟩⟩) = 80 ∧
      invVmpMin (some ⟨some ⟨some 0, some 0, some 0⟩⟩) = invVmpMin none) ∧
    vocColdString (some ⟨some ⟨some 0, some 0, some 0⟩⟩) =
      vocColdString none :=
  ⟨(claim_C10 ⟨some 0, some 0, some 0⟩ true).1 rfl,
   (claim_C10 ⟨some 0, some 0, some 0⟩ true).2.1 rfl,
   (claim_C10 ⟨some 0, some 0, some 0⟩ true).2.2 rfl⟩

end PVCalc
